import Mathlib

/-!
# moviehandler.c : the JNI shim of the video downloader

A shallow embedding of `android/app/src/main/jni/moviehandler.c`.

The C functions run against a JNI environment the program does not
control.  The embedding makes this explicit:

* the host (`JNIEnv`, `JavaVM`) is a record of functions that answer the
  JNI calls whose results come from the managed runtime (`FindClass`,
  `GetMethodID`, `CallObjectMethod`, `RegisterNatives`, ...).  The answers
  are functions of the call arguments, and every call is answered: what
  the runtime does with a NULL reference or a NULL method identifier is
  part of the host, not of the program;
* the string functions of JNI (`GetStringUTFChars`, `NewStringUTF`) are
  given their documented meaning: conversion between a Java string (a list
  of UTF-16 code units) and a NUL terminated buffer of modified UTF-8.
  Allocation failure inside the runtime is not modelled;
* every C function is a computation in the monad `JNI`, which threads the
  list of JNI calls made so far and ends in an `Outcome`: a returned value,
  a process exit with a status, or a fault (`strcmp` on a NULL pointer).
-/

namespace MovieHandler

/-! ## Constants of `jni.h` -/

/-- Success status of a JNI function (`jni.h`). -/
def JNI_OK : Int := 0
/-- Generic failure status of a JNI function (`jni.h`). -/
def JNI_ERR : Int := -1
/-- The `jboolean` false of `jni.h`. -/
def JNI_FALSE : Int := 0
/-- The `jboolean` true of `jni.h`. -/
def JNI_TRUE : Int := 1
/-- The interface version requested by the library (`jni.h`). -/
def JNI_VERSION_1_6 : Int := 0x00010006

/-! ## Values -/

/-- A C string: the bytes of a buffer, the terminating NUL included. -/
abbrev CString := List Nat

/-- The buffer of an ASCII string literal of the source: one byte per
character, followed by the terminating NUL. -/
def cstr (s : String) : CString := s.toList.map Char.toNat ++ [0]

/-- A Java reference (`jobject`, `jclass`, `jstring`): NULL, a string with
its UTF-16 code units, or any other object, named by a number. -/
inductive JObject where
  | null
  | str (units : List Nat)
  | obj (id : Nat)
  deriving DecidableEq, Repr

/-- A method identifier (`jmethodID`); `0` stands for NULL. -/
abbrev JMethodID := Nat

/-- The native functions a `JNINativeMethod` entry can point to. -/
inductive NativeFn where
  | initLib
  | fan
  | initAdsNetwork
  deriving DecidableEq, Repr

/-- An entry of a native-method table (`JNINativeMethod` of `jni.h`). -/
structure JNINativeMethod where
  name : CString
  signature : CString
  fnPtr : NativeFn
  deriving DecidableEq, Repr

/-- A call of a JNI function, with its arguments, as recorded in the
history of a run. -/
inductive Event where
  | GetEnv (version : Int)
  | FindClass (name : CString)
  | GetStaticMethodID (clazz : JObject) (name sig : CString)
  | CallStaticObjectMethod (clazz : JObject) (m : JMethodID) (args : List JObject)
  | GetObjectClass (o : JObject)
  | GetMethodID (clazz : JObject) (name sig : CString)
  | CallObjectMethod (o : JObject) (m : JMethodID) (args : List JObject)
  | CallVoidMethod (o : JObject) (m : JMethodID) (args : List JObject)
  | DeleteLocalRef (o : JObject)
  | GetStringUTFChars (s : JObject)
  | ReleaseStringUTFChars (s : JObject) (chars : Option CString)
  | NewStringUTF (bytes : CString)
  | RegisterNatives (clazz : JObject) (methods : List JNINativeMethod) (n : Nat)
  deriving DecidableEq, Repr

/-- The answers of the managed runtime to the JNI calls of the program. -/
structure JNIEnv where
  FindClass : CString → JObject
  GetStaticMethodID : JObject → CString → CString → JMethodID
  CallStaticObjectMethod : JObject → JMethodID → List JObject → JObject
  GetObjectClass : JObject → JObject
  GetMethodID : JObject → CString → CString → JMethodID
  CallObjectMethod : JObject → JMethodID → List JObject → JObject
  RegisterNatives : JObject → List JNINativeMethod → Nat → Int

/-- The invocation interface: `GetEnv` answers with a status and the
environment it stores through its out parameter. -/
structure JavaVM where
  GetEnv : Int → Int × JNIEnv

/-! ## The monad of runs -/

/-- How a run of a C function ends. -/
inductive Outcome (α : Type) where
  | returned (v : α)
  | exited (status : Int)
  | fault
  deriving DecidableEq, Repr

/-- A computation: from the calls made so far to an outcome and the calls
made up to it. -/
def JNI (α : Type) : Type := List Event → Outcome α × List Event

/-- Plain return of a value. -/
def JNI.pure {α : Type} (a : α) : JNI α := fun t => (Outcome.returned a, t)

/-- Sequencing: the continuation runs only when the first part returned. -/
def JNI.bind {α β : Type} (m : JNI α) (f : α → JNI β) : JNI β := fun t =>
  match m t with
  | (Outcome.returned a, t1) => f a t1
  | (Outcome.exited s, t1) => (Outcome.exited s, t1)
  | (Outcome.fault, t1) => (Outcome.fault, t1)

instance : Monad JNI where
  pure := JNI.pure
  bind := JNI.bind

/-- Record a JNI call and hand back its answer. -/
def call {α : Type} (e : Event) (answer : α) : JNI α :=
  fun t => (Outcome.returned answer, t ++ [e])

/-- The `exit` of `stdlib.h`: the process ends with the given status. -/
def exit {α : Type} (status : Int) : JNI α := fun t => (Outcome.exited status, t)

/-! ## Strings -/

/-- Modified UTF-8 of one UTF-16 code unit: one byte for `0x01..0x7F`, two
bytes for `0` and `0x80..0x7FF`, three bytes above. -/
def mutf8Unit (u : Nat) : List Nat :=
  if 1 ≤ u ∧ u ≤ 0x7F then [u]
  else if u ≤ 0x7FF then [0xC0 + u / 64 % 32, 0x80 + u % 64]
  else [0xE0 + u / 4096 % 16, 0x80 + u / 64 % 64, 0x80 + u % 64]

/-- Modified UTF-8 of a sequence of UTF-16 code units. -/
def mutf8Encode : List Nat → List Nat
  | [] => []
  | u :: us => mutf8Unit u ++ mutf8Encode us

/-- Decoding of modified UTF-8, by the pattern of the leading byte; the
bytes a truncated sequence lacks read as `0`. -/
def mutf8Decode : List Nat → List Nat
  | [] => []
  | [b0] => if b0 < 0x80 then [b0] else if b0 < 0xE0 then [b0 % 32 * 64] else [b0 % 16 * 4096]
  | [b0, b1] =>
    if b0 < 0x80 then b0 :: mutf8Decode [b1]
    else if b0 < 0xE0 then [b0 % 32 * 64 + b1 % 64]
    else [b0 % 16 * 4096 + b1 % 64 * 64]
  | b0 :: b1 :: b2 :: bs =>
    if b0 < 0x80 then b0 :: mutf8Decode (b1 :: b2 :: bs)
    else if b0 < 0xE0 then (b0 % 32 * 64 + b1 % 64) :: mutf8Decode (b2 :: bs)
    else (b0 % 16 * 4096 + b1 % 64 * 64 + b2 % 64) :: mutf8Decode bs

/-- The bytes of a C string before its first NUL. -/
def cbytes (s : CString) : List Nat := s.takeWhile (fun b => b ≠ 0)

/-- The `strcmp` of `string.h` on two buffers: the difference of the first
pair of bytes that differ, `0` when both strings end together.  The end of
a list reads as NUL. -/
def strcmpBuf : CString → CString → Int
  | [], [] => 0
  | [], b :: _ => 0 - (b : Int)
  | a :: _, [] => (a : Int)
  | a :: as, b :: bs =>
    if a ≠ b then (a : Int) - (b : Int)
    else if a = 0 then 0
    else strcmpBuf as bs

/-- A call of `strcmp` with a pointer that may be NULL: comparing through a
NULL pointer is a fault. -/
def strcmp (p : Option CString) (q : CString) : JNI Int :=
  match p with
  | some b => pure (strcmpBuf b q)
  | none => fun t => (Outcome.fault, t)

/-! ## The JNI functions the program calls -/

/-- JNI `FindClass`. -/
def FindClass (env : JNIEnv) (name : CString) : JNI JObject :=
  call (Event.FindClass name) (env.FindClass name)

/-- JNI `GetStaticMethodID`. -/
def GetStaticMethodID (env : JNIEnv) (clazz : JObject) (name sig : CString) : JNI JMethodID :=
  call (Event.GetStaticMethodID clazz name sig) (env.GetStaticMethodID clazz name sig)

/-- JNI `CallStaticObjectMethod`. -/
def CallStaticObjectMethod (env : JNIEnv) (clazz : JObject) (m : JMethodID)
    (args : List JObject) : JNI JObject :=
  call (Event.CallStaticObjectMethod clazz m args) (env.CallStaticObjectMethod clazz m args)

/-- JNI `GetObjectClass`. -/
def GetObjectClass (env : JNIEnv) (o : JObject) : JNI JObject :=
  call (Event.GetObjectClass o) (env.GetObjectClass o)

/-- JNI `GetMethodID`. -/
def GetMethodID (env : JNIEnv) (clazz : JObject) (name sig : CString) : JNI JMethodID :=
  call (Event.GetMethodID clazz name sig) (env.GetMethodID clazz name sig)

/-- JNI `CallObjectMethod`. -/
def CallObjectMethod (env : JNIEnv) (o : JObject) (m : JMethodID)
    (args : List JObject) : JNI JObject :=
  call (Event.CallObjectMethod o m args) (env.CallObjectMethod o m args)

/-- JNI `CallVoidMethod`. -/
def CallVoidMethod (_env : JNIEnv) (o : JObject) (m : JMethodID)
    (args : List JObject) : JNI Unit :=
  call (Event.CallVoidMethod o m args) ()

/-- JNI `DeleteLocalRef`. -/
def DeleteLocalRef (_env : JNIEnv) (o : JObject) : JNI Unit :=
  call (Event.DeleteLocalRef o) ()

/-- JNI `GetStringUTFChars`: the modified UTF-8 of a Java string, NUL
terminated; NULL when the reference is not a string. -/
def GetStringUTFChars (_env : JNIEnv) (s : JObject) : JNI (Option CString) :=
  call (Event.GetStringUTFChars s)
    (match s with
     | JObject.str units => some (mutf8Encode units ++ [0])
     | _ => none)

/-- JNI `ReleaseStringUTFChars`. -/
def ReleaseStringUTFChars (_env : JNIEnv) (s : JObject) (chars : Option CString) : JNI Unit :=
  call (Event.ReleaseStringUTFChars s chars) ()

/-- JNI `NewStringUTF`: the Java string made of the modified UTF-8 bytes
before the terminating NUL. -/
def NewStringUTF (_env : JNIEnv) (bytes : CString) : JNI JObject :=
  call (Event.NewStringUTF bytes) (JObject.str (mutf8Decode (cbytes bytes)))

/-- JNI `RegisterNatives`. -/
def RegisterNatives (env : JNIEnv) (clazz : JObject) (methods : List JNINativeMethod)
    (n : Nat) : JNI Int :=
  call (Event.RegisterNatives clazz methods n) (env.RegisterNatives clazz methods n)

/-- Invocation interface `GetEnv`. -/
def GetEnv (vm : JavaVM) (version : Int) : JNI (Int × JNIEnv) :=
  call (Event.GetEnv version) (vm.GetEnv version)

/-! ## The program -/

/-- The class the native methods are registered on. -/
def JNIREG_CLASS : CString := cstr "com/agcforge/lk21xxi/videodownloader/utils/AppManager"

/-- The expected package name. -/
def PKG : CString := cstr "com.agcforge.lk21xxi.videodownloader"

/-- The application id of the ad SDK. -/
def appid : CString := cstr ""
/-- The client key of the ad SDK. -/
def clientkey : CString := cstr ""

/-- The identifier of the second ad network. -/
def fanid : CString := cstr ""

/-- `getApplication`: `ActivityThread.currentApplication()`, or NULL when
the class or the method cannot be found. -/
def getApplication (env : JNIEnv) : JNI JObject := do
  let mut application := JObject.null
  let activity_thread_clz ← FindClass env (cstr "android/app/ActivityThread")
  if activity_thread_clz ≠ JObject.null then
    let currentApplication ← GetStaticMethodID env activity_thread_clz
      (cstr "currentApplication") (cstr "()Landroid/app/Application;")
    if currentApplication ≠ 0 then
      application ← CallStaticObjectMethod env activity_thread_clz currentApplication []
    DeleteLocalRef env activity_thread_clz
  pure application

/-- `checkSign`: compares the package name of the application with `PKG`. -/
def checkSign (env : JNIEnv) : JNI Int := do
  let application ← getApplication env
  if application = JObject.null then
    pure JNI_ERR
  else
    let context_clz ← GetObjectClass env application
    let getPackageManager ← GetMethodID env context_clz (cstr "getPackageManager")
      (cstr "()Landroid/content/pm/PackageManager;")
    let package_manager ← CallObjectMethod env application getPackageManager []
    let package_manager_clz ← GetObjectClass env package_manager
    let _getPackageInfo ← GetMethodID env package_manager_clz (cstr "getPackageInfo")
      (cstr "(Ljava/lang/String;I)Landroid/content/pm/PackageInfo;")
    let getPackageName ← GetMethodID env context_clz (cstr "getPackageName")
      (cstr "()Ljava/lang/String;")
    let package_name ← CallObjectMethod env application getPackageName []
    DeleteLocalRef env application
    DeleteLocalRef env context_clz
    DeleteLocalRef env package_manager
    DeleteLocalRef env package_manager_clz
    let pkg ← GetStringUTFChars env package_name
    let result2 ← strcmp pkg PKG
    ReleaseStringUTFChars env package_name pkg
    DeleteLocalRef env package_name
    if result2 = 0 then
      pure JNI_OK
    else
      pure JNI_ERR

/-- `verifySign`: ends the process with status 1 when `checkSign` fails. -/
def verifySign (env : JNIEnv) : JNI Unit := do
  if (← checkSign env) = JNI_ERR then
    exit 1
  else
    pure ()

/-- The objects of the ad SDK that `initAdsNetwork` uses and the file does
not declare. -/
structure Globals where
  app_clz : JObject
  getlistener : JMethodID
  tapdaqInstance : JObject
  funcInit : JMethodID

/-- Native method `init`. -/
def initLib (env : JNIEnv) (_thiz : JObject) : JNI JObject :=
  NewStringUTF env (cstr "init rom, don\x27t remove")

/-- Native method `getId`. -/
def fan (env : JNIEnv) (_thiz : JObject) : JNI JObject :=
  NewStringUTF env fanid

/-- Native method `register`. -/
def initAdsNetwork (g : Globals) (env : JNIEnv) (_thiz : JObject) (activity : JObject) :
    JNI Unit := do
  let appidX ← NewStringUTF env appid
  let clientkeyX ← NewStringUTF env clientkey
  let listener ← CallStaticObjectMethod env g.app_clz g.getlistener []
  CallVoidMethod env g.tapdaqInstance g.funcInit
    [activity, appidX, clientkeyX, JObject.null, listener]

/-- The table of native methods. -/
def method_table : List JNINativeMethod :=
  [ { name := cstr "init", signature := cstr "()Ljava/lang/String;", fnPtr := NativeFn.initLib },
    { name := cstr "getId", signature := cstr "()Ljava/lang/String;", fnPtr := NativeFn.fan },
    { name := cstr "register", signature := cstr "(Landroid/app/Activity;)V",
      fnPtr := NativeFn.initAdsNetwork } ]

/-- `registerNativeMethods`: registers `method_table` on `JNIREG_CLASS`. -/
def registerNativeMethods (env : JNIEnv) : JNI Int := do
  let clazz ← FindClass env JNIREG_CLASS
  if clazz = JObject.null then
    pure JNI_FALSE
  else if (← RegisterNatives env clazz method_table method_table.length) < 0 then
    pure JNI_FALSE
  else
    pure JNI_TRUE

/-- `JNI_OnLoad`: the hook the runtime calls when it loads the library. -/
def JNI_OnLoad (vm : JavaVM) : JNI Int := do
  let (status, env) ← GetEnv vm JNI_VERSION_1_6
  if status ≠ JNI_OK then
    pure JNI_ERR
  else
    verifySign env
    if (← registerNativeMethods env) = JNI_FALSE then
      exit 0
    else
      pure JNI_VERSION_1_6


/-! ## Concrete hosts -/

/-- A host in which the application exists, `getPackageName()` answers
`pkgName`, `FindClass` answers `regClass` for `JNIREG_CLASS`, and
`RegisterNatives` answers `regStatus`. -/
def demoEnv (pkgName : JObject) (regClass : JObject) (regStatus : Int) : JNIEnv where
  FindClass := fun n => if n = JNIREG_CLASS then regClass else JObject.obj 1
  GetStaticMethodID := fun _ _ _ => 7
  CallStaticObjectMethod := fun _ _ _ => JObject.obj 10
  GetObjectClass := fun o => if o = JObject.obj 10 then JObject.obj 11 else JObject.obj 12
  GetMethodID := fun _ n _ => if n = cstr "getPackageName" then 23 else 21
  CallObjectMethod := fun _ m _ => if m = 23 then pkgName else JObject.obj 30
  RegisterNatives := fun _ _ _ => regStatus

/-- A virtual machine whose `GetEnv` answers `status` and stores `env`. -/
def demoVM (status : Int) (env : JNIEnv) : JavaVM where
  GetEnv := fun _ => (status, env)

/-- A host that differs from `demoEnv` in every answer but the package
name: another application, another PackageManager, other classes and
method identifiers, no `getPackageInfo` method. -/
def otherEnv (pkgName : JObject) : JNIEnv where
  FindClass := fun _ => JObject.obj 100
  GetStaticMethodID := fun _ _ _ => 1
  CallStaticObjectMethod := fun _ _ _ => JObject.obj 200
  GetObjectClass := fun o => if o = JObject.obj 200 then JObject.obj 201 else JObject.obj 301
  GetMethodID := fun _ n _ =>
    if n = cstr "getPackageName" then 5 else if n = cstr "getPackageInfo" then 0 else 6
  CallObjectMethod := fun _ m _ => if m = 5 then pkgName else JObject.obj 300
  RegisterNatives := fun _ _ _ => 0

/-! ## Observations on runs -/

/-- The calls with which native methods get registered: `RegisterNatives`
and `FindClass` on `JNIREG_CLASS`. -/
def isRegistration : Event → Bool
  | Event.RegisterNatives _ _ _ => true
  | Event.FindClass name => decide (name = JNIREG_CLASS)
  | _ => false

/-- The package name `getPackageName()` answers on the application `app`,
looked up the way `checkSign` does. -/
def packageNameOf (env : JNIEnv) (app : JObject) : JObject :=
  env.CallObjectMethod app
    (env.GetMethodID (env.GetObjectClass app) (cstr "getPackageName")
      (cstr "()Ljava/lang/String;")) []

/-- The package check fails on a host: the application cannot be obtained,
or its package name is a string other than the text of `PKG`. -/
def packageCheckFails (env : JNIEnv) : Prop :=
  (getApplication env []).1 = Outcome.returned JObject.null ∨
  ∃ app p, (getApplication env []).1 = Outcome.returned app ∧ app ≠ JObject.null ∧
    packageNameOf env app = JObject.str p ∧ p ≠ cbytes PKG

/-- The package check passes on a host: the application is obtained and
its package name is the text of `PKG`. -/
def packageCheckPasses (env : JNIEnv) : Prop :=
  ∃ app, (getApplication env []).1 = Outcome.returned app ∧ app ≠ JObject.null ∧
    packageNameOf env app = JObject.str (cbytes PKG)

/-- The registration fails on a host: `FindClass` on `JNIREG_CLASS` answers
NULL, or `RegisterNatives` on that class with `method_table` answers a
negative value. -/
def registrationFails (env : JNIEnv) : Prop :=
  env.FindClass JNIREG_CLASS = JObject.null ∨
  env.RegisterNatives (env.FindClass JNIREG_CLASS) method_table 3 < 0

/-- A computation is framed when the calls made before it change neither
its outcome nor the calls it makes. -/
def Framed {α : Type} (m : JNI α) : Prop :=
  ∀ t, m t = ((m []).1, t ++ (m []).2)

/-! ## Strings: `strcmp` against an ASCII literal -/


theorem mutf8Unit_head (u : Nat) :
    (∃ rest, mutf8Unit u = u :: rest ∧ rest = [] ∧ 1 ≤ u ∧ u ≤ 0x7F) ∨
    (∃ b rest, mutf8Unit u = b :: rest ∧ 0xC0 ≤ b ∧ ¬ (1 ≤ u ∧ u ≤ 0x7F)) := by
  unfold mutf8Unit
  by_cases h1 : 1 ≤ u ∧ u ≤ 0x7F
  · left; exact ⟨[], by simp [h1], rfl, h1.1, h1.2⟩
  · right
    by_cases h2 : u ≤ 0x7FF
    · exact ⟨_, _, by simp only [h1, h2, if_true, if_false]; rfl, by omega, h1⟩
    · exact ⟨_, _, by simp only [h1, h2, if_false]; rfl, by omega, h1⟩

theorem strcmpBuf_mutf8_ascii (a : List Nat) (ha : ∀ x ∈ a, 1 ≤ x ∧ x ≤ 0x7F) (p : List Nat) :
    strcmpBuf (mutf8Encode p ++ [0]) (a ++ [0]) = 0 ↔ p = a := by
  induction a generalizing p with
  | nil =>
    cases p with
    | nil => simp [mutf8Encode, strcmpBuf]
    | cons u us =>
      rcases mutf8Unit_head u with ⟨rest, h, -, h1, -⟩ | ⟨b, rest, h, hb, -⟩
      · simp only [mutf8Encode, h, List.cons_append, List.nil_append, strcmpBuf]
        have : u ≠ 0 := by omega
        simp [this]
      · simp only [mutf8Encode, h, List.cons_append, List.nil_append, strcmpBuf]
        have : b ≠ 0 := by omega
        simp [this]
  | cons c cs ih =>
    have hc := ha c (List.mem_cons_self _ _)
    have hcs : ∀ x ∈ cs, 1 ≤ x ∧ x ≤ 0x7F := fun x hx => ha x (List.mem_cons_of_mem _ hx)
    cases p with
    | nil =>
      simp only [mutf8Encode, List.cons_append, List.nil_append, strcmpBuf]
      have : (0 : Nat) ≠ c := by omega
      simp [this]
      omega
    | cons u us =>
      rcases mutf8Unit_head u with ⟨rest, h, hr, h1, h2⟩ | ⟨b, rest, h, hb, hu⟩
      · subst hr
        simp only [mutf8Encode, h, List.cons_append, List.nil_append, strcmpBuf]
        by_cases huc : u = c
        · subst huc
          have : u ≠ 0 := by omega
          simp [this, ih hcs us]
        · simp [huc]
          omega
      · simp only [mutf8Encode, h, List.cons_append, List.nil_append, strcmpBuf]
        have hbc : b ≠ c := by omega
        have huc : u ≠ c := by
          intro e; subst e; exact hu hc
        simp [hbc, huc]
        omega

theorem PKG_ascii : PKG = cbytes PKG ++ [0] ∧ ∀ x ∈ cbytes PKG, 1 ≤ x ∧ x ≤ 0x7F := by
  decide

theorem strcmpBuf_PKG (p : List Nat) :
    strcmpBuf (mutf8Encode p ++ [0]) PKG = 0 ↔ p = cbytes PKG := by
  have h := strcmpBuf_mutf8_ascii (cbytes PKG) PKG_ascii.2 p
  rw [← PKG_ascii.1] at h
  exact h

/-! ## Runs of the program -/

theorem Framed.pure {α : Type} (a : α) : Framed (pure a : JNI α) := by
  intro t; simp [Pure.pure, JNI.pure]

theorem Framed.call {α : Type} (e : Event) (a : α) : Framed (call e a) := by
  intro t; simp [MovieHandler.call]

theorem Framed.exit {α : Type} (s : Int) : Framed (exit s : JNI α) := by
  intro t; simp [MovieHandler.exit]

theorem Framed.bind {α β : Type} {m : JNI α} {f : α → JNI β} (hm : Framed m)
    (hf : ∀ a, Framed (f a)) : Framed (m >>= f) := by
  intro t
  show JNI.bind m f t = ((JNI.bind m f []).1, t ++ (JNI.bind m f []).2)
  unfold JNI.bind
  rw [hm t]
  rcases h : m [] with ⟨o, t1⟩
  cases o with
  | returned a =>
    simp only []
    rw [hf a (t ++ t1), hf a t1]
    simp [List.append_assoc]
  | exited s => simp
  | fault => simp

theorem Framed.strcmp (p : Option CString) (q : CString) : Framed (strcmp p q) := by
  cases p with
  | none => intro t; simp [MovieHandler.strcmp]
  | some b => exact Framed.pure _

theorem getApplication_framed (env : JNIEnv) : Framed (getApplication env) := by
  unfold getApplication FindClass GetStaticMethodID CallStaticObjectMethod DeleteLocalRef
  repeat (first
    | apply Framed.bind
    | apply Framed.pure
    | apply Framed.call
    | intro _
    | split)

theorem checkSign_framed (env : JNIEnv) : Framed (checkSign env) := by
  unfold checkSign GetObjectClass GetMethodID CallObjectMethod DeleteLocalRef
    GetStringUTFChars ReleaseStringUTFChars
  repeat (first
    | exact getApplication_framed env
    | apply Framed.bind
    | apply Framed.pure
    | apply Framed.call
    | apply Framed.strcmp
    | intro _
    | split)

theorem registerNativeMethods_framed (env : JNIEnv) : Framed (registerNativeMethods env) := by
  unfold registerNativeMethods FindClass RegisterNatives
  repeat (first
    | apply Framed.bind
    | apply Framed.pure
    | apply Framed.call
    | intro _
    | split)

theorem getApplication_returns (env : JNIEnv) (t : List Event) :
    ∃ app, (getApplication env t).1 = Outcome.returned app := by
  by_cases h1 : env.FindClass (cstr "android/app/ActivityThread") = JObject.null
  · exact ⟨JObject.null, by
      simp [getApplication, bind, JNI.bind, pure, JNI.pure, FindClass, call, h1]⟩
  · by_cases h2 : env.GetStaticMethodID (env.FindClass (cstr "android/app/ActivityThread"))
        (cstr "currentApplication") (cstr "()Landroid/app/Application;") = 0
    · exact ⟨JObject.null, by
        simp [getApplication, bind, JNI.bind, pure, JNI.pure, FindClass, GetStaticMethodID,
          DeleteLocalRef, call, h1, h2]⟩
    · exact ⟨_, by
        simp [getApplication, bind, JNI.bind, pure, JNI.pure, FindClass, GetStaticMethodID,
          CallStaticObjectMethod, DeleteLocalRef, call, h1, h2]
        rfl⟩

theorem getApplication_no_registration (env : JNIEnv) :
    ∀ e ∈ (getApplication env []).2, isRegistration e = false := by
  have hne : cstr "android/app/ActivityThread" ≠ JNIREG_CLASS := by decide
  by_cases h1 : env.FindClass (cstr "android/app/ActivityThread") = JObject.null
  · simp [getApplication, bind, JNI.bind, pure, JNI.pure, FindClass, call, h1, isRegistration, hne]
  · by_cases h2 : env.GetStaticMethodID (env.FindClass (cstr "android/app/ActivityThread"))
        (cstr "currentApplication") (cstr "()Landroid/app/Application;") = 0
    · simp [getApplication, bind, JNI.bind, pure, JNI.pure, FindClass, GetStaticMethodID,
          DeleteLocalRef, call, h1, h2, isRegistration, hne]
    · simp [getApplication, bind, JNI.bind, pure, JNI.pure, FindClass, GetStaticMethodID,
          CallStaticObjectMethod, DeleteLocalRef, call, h1, h2, isRegistration, hne]

/-- The outcome of `checkSign`, by the application and its package name. -/
theorem checkSign_outcome (env : JNIEnv) (t : List Event) (app : JObject)
    (happ : (getApplication env t).1 = Outcome.returned app) :
    (checkSign env t).1 =
      if app = JObject.null then Outcome.returned JNI_ERR
      else match packageNameOf env app with
        | JObject.str p =>
          if strcmpBuf (mutf8Encode p ++ [0]) PKG = 0 then Outcome.returned JNI_OK
          else Outcome.returned JNI_ERR
        | _ => Outcome.fault := by
  rcases hg : getApplication env t with ⟨o, t1⟩
  rw [hg] at happ
  simp only at happ
  subst happ
  by_cases hnull : app = JObject.null
  · simp [checkSign, bind, JNI.bind, pure, JNI.pure, hg, hnull]
  · rcases hp : packageNameOf env app with _ | p | n
    · unfold packageNameOf at hp
      simp [checkSign, bind, JNI.bind, pure, JNI.pure, hg, hnull, GetObjectClass, GetMethodID,
        CallObjectMethod, DeleteLocalRef, GetStringUTFChars, ReleaseStringUTFChars, call,
        strcmp, hp]
    · unfold packageNameOf at hp
      simp [checkSign, bind, JNI.bind, pure, JNI.pure, hg, hnull, GetObjectClass, GetMethodID,
        CallObjectMethod, DeleteLocalRef, GetStringUTFChars, ReleaseStringUTFChars, call,
        strcmp, hp]
      split <;> rfl
    · unfold packageNameOf at hp
      simp [checkSign, bind, JNI.bind, pure, JNI.pure, hg, hnull, GetObjectClass, GetMethodID,
        CallObjectMethod, DeleteLocalRef, GetStringUTFChars, ReleaseStringUTFChars, call,
        strcmp, hp]

theorem checkSign_no_registration (env : JNIEnv) :
    ∀ e ∈ (checkSign env []).2, isRegistration e = false := by
  have hno := getApplication_no_registration env
  rcases hg : getApplication env [] with ⟨o, t1⟩
  rw [hg] at hno
  obtain ⟨app, happ⟩ := getApplication_returns env []
  rw [hg] at happ
  simp only at happ hno
  subst happ
  intro e he
  by_cases hnull : app = JObject.null
  · simp [checkSign, bind, JNI.bind, pure, JNI.pure, hg, hnull] at he
    exact hno e he
  · rcases hp : env.CallObjectMethod app
        (env.GetMethodID (env.GetObjectClass app) (cstr "getPackageName")
          (cstr "()Ljava/lang/String;")) [] with _ | p | n
    · simp [checkSign, bind, JNI.bind, pure, JNI.pure, hg, hnull, GetObjectClass, GetMethodID,
        CallObjectMethod, DeleteLocalRef, GetStringUTFChars, ReleaseStringUTFChars, call,
        strcmp, hp] at he
      rcases he with he | he
      · exact hno e he
      · (repeat' rcases he with he | he) <;> rfl
    · by_cases hc : strcmpBuf (mutf8Encode p ++ [0]) PKG = 0
      all_goals
        simp [checkSign, bind, JNI.bind, pure, JNI.pure, hg, hnull, GetObjectClass, GetMethodID,
          CallObjectMethod, DeleteLocalRef, GetStringUTFChars, ReleaseStringUTFChars, call,
          strcmp, hp, hc] at he
        rcases he with he | he
        · exact hno e he
        · (repeat' rcases he with he | he) <;> rfl
    · simp [checkSign, bind, JNI.bind, pure, JNI.pure, hg, hnull, GetObjectClass, GetMethodID,
        CallObjectMethod, DeleteLocalRef, GetStringUTFChars, ReleaseStringUTFChars, call,
        strcmp, hp] at he
      rcases he with he | he
      · exact hno e he
      · (repeat' rcases he with he | he) <;> rfl

theorem verifySign_eq (env : JNIEnv) (t : List Event) :
    verifySign env t =
      match checkSign env t with
      | (Outcome.returned r, t1) =>
        if r = JNI_ERR then (Outcome.exited 1, t1) else (Outcome.returned (), t1)
      | (Outcome.exited s, t1) => (Outcome.exited s, t1)
      | (Outcome.fault, t1) => (Outcome.fault, t1) := by
  simp only [verifySign, bind, JNI.bind]
  rcases checkSign env t with ⟨o, t1⟩
  cases o with
  | returned r => by_cases h : r = JNI_ERR <;> simp [h, exit, pure, JNI.pure]
  | exited s => rfl
  | fault => rfl

theorem registerNativeMethods_eq (env : JNIEnv) (t : List Event) :
    registerNativeMethods env t =
      if env.FindClass JNIREG_CLASS = JObject.null then
        (Outcome.returned JNI_FALSE, t ++ [Event.FindClass JNIREG_CLASS])
      else
        (Outcome.returned
          (if env.RegisterNatives (env.FindClass JNIREG_CLASS) method_table 3 < 0
            then JNI_FALSE else JNI_TRUE),
         t ++ [Event.FindClass JNIREG_CLASS,
               Event.RegisterNatives (env.FindClass JNIREG_CLASS) method_table 3]) := by
  have hlen : method_table.length = 3 := rfl
  by_cases h1 : env.FindClass JNIREG_CLASS = JObject.null
  · simp [registerNativeMethods, bind, JNI.bind, pure, JNI.pure, FindClass, call, h1]
  · by_cases h2 : env.RegisterNatives (env.FindClass JNIREG_CLASS) method_table 3 < 0
    · simp [registerNativeMethods, bind, JNI.bind, pure, JNI.pure, FindClass, RegisterNatives,
        call, h1, h2, hlen]
    · simp [registerNativeMethods, bind, JNI.bind, pure, JNI.pure, FindClass, RegisterNatives,
        call, h1, h2, hlen]

theorem JNI_OnLoad_eq (vm : JavaVM) (t : List Event) :
    JNI_OnLoad vm t =
      if (vm.GetEnv JNI_VERSION_1_6).1 ≠ JNI_OK then
        (Outcome.returned JNI_ERR, t ++ [Event.GetEnv JNI_VERSION_1_6])
      else
        match verifySign (vm.GetEnv JNI_VERSION_1_6).2 (t ++ [Event.GetEnv JNI_VERSION_1_6]) with
        | (Outcome.returned _, t1) =>
          if (registerNativeMethods (vm.GetEnv JNI_VERSION_1_6).2 t1).1
              = Outcome.returned JNI_FALSE then
            (Outcome.exited 0, (registerNativeMethods (vm.GetEnv JNI_VERSION_1_6).2 t1).2)
          else
            (Outcome.returned JNI_VERSION_1_6,
              (registerNativeMethods (vm.GetEnv JNI_VERSION_1_6).2 t1).2)
        | (Outcome.exited s, t1) => (Outcome.exited s, t1)
        | (Outcome.fault, t1) => (Outcome.fault, t1) := by
  obtain ⟨g⟩ := vm
  rcases hg : g JNI_VERSION_1_6 with ⟨status, env⟩
  by_cases h : status = JNI_OK
  · subst h
    simp only [JNI_OnLoad, bind, JNI.bind, GetEnv, call, hg, ne_eq, not_true_eq_false, if_false]
    rcases verifySign env (t ++ [Event.GetEnv JNI_VERSION_1_6]) with ⟨o, t1⟩
    cases o with
    | returned r =>
      simp only []
      rw [registerNativeMethods_eq]
      by_cases h1 : env.FindClass JNIREG_CLASS = JObject.null
      · simp [h1, exit, JNI_FALSE]
      · by_cases h2 : env.RegisterNatives (env.FindClass JNIREG_CLASS) method_table 3 < 0
        · simp [h1, h2, exit, JNI_FALSE]
        · simp [h1, h2, exit, JNI_FALSE, JNI_TRUE, pure, JNI.pure]
    | exited s => rfl
    | fault => rfl
  · simp [JNI_OnLoad, bind, JNI.bind, GetEnv, call, hg, h, pure, JNI.pure]

theorem checkSign_fst (env : JNIEnv) (t : List Event) :
    (checkSign env t).1 = (checkSign env []).1 := by
  rw [checkSign_framed env t]

theorem checkSign_snd (env : JNIEnv) (t : List Event) :
    (checkSign env t).2 = t ++ (checkSign env []).2 := by
  rw [checkSign_framed env t]

theorem getApplication_fst (env : JNIEnv) (t : List Event) :
    (getApplication env t).1 = (getApplication env []).1 := by
  rw [getApplication_framed env t]

/-- The three outcomes `checkSign` can have. -/
theorem checkSign_cases (env : JNIEnv) (t : List Event) :
    (checkSign env t).1 = Outcome.returned JNI_OK ∨
    (checkSign env t).1 = Outcome.returned JNI_ERR ∨
    (checkSign env t).1 = Outcome.fault := by
  obtain ⟨app, happ⟩ := getApplication_returns env t
  rw [checkSign_outcome env t app happ]
  by_cases hnull : app = JObject.null
  · simp [hnull]
  · rw [if_neg hnull]
    rcases packageNameOf env app with _ | p | n
    · simp
    · by_cases hc : strcmpBuf (mutf8Encode p ++ [0]) PKG = 0 <;> simp [hc]
    · simp

/-- The run of `verifySign`, by the outcome of `checkSign`. -/
theorem verifySign_of_checkSign (env : JNIEnv) (t : List Event) :
    ((checkSign env t).1 = Outcome.returned JNI_OK →
      verifySign env t = (Outcome.returned (), (checkSign env t).2)) ∧
    ((checkSign env t).1 = Outcome.returned JNI_ERR →
      verifySign env t = (Outcome.exited 1, (checkSign env t).2)) ∧
    ((checkSign env t).1 = Outcome.fault →
      verifySign env t = (Outcome.fault, (checkSign env t).2)) := by
  rw [verifySign_eq]
  rcases checkSign env t with ⟨o, t1⟩
  refine ⟨?_, ?_, ?_⟩ <;> intro h <;> simp only at h <;> subst h <;> simp [JNI_OK, JNI_ERR]

/-- A package name that is absent or wrong makes `checkSign` return
`JNI_ERR`. -/
theorem checkSign_err_of_mismatch (env : JNIEnv) (t : List Event)
    (hbad : (getApplication env []).1 = Outcome.returned JObject.null ∨
      ∃ app p, (getApplication env []).1 = Outcome.returned app ∧ app ≠ JObject.null ∧
        packageNameOf env app = JObject.str p ∧ p ≠ cbytes PKG) :
    (checkSign env t).1 = Outcome.returned JNI_ERR := by
  rcases hbad with happ | ⟨app, p, happ, hnn, hp, hne⟩
  · rw [← getApplication_fst env t] at happ
    rw [checkSign_outcome env t _ happ]
    simp
  · rw [← getApplication_fst env t] at happ
    rw [checkSign_outcome env t _ happ, hp, if_neg hnn]
    have hc : ¬ strcmpBuf (mutf8Encode p ++ [0]) PKG = 0 := fun h => hne ((strcmpBuf_PKG p).1 h)
    simp only []
    rw [if_neg hc]

/-- In a list that starts with calls none of which is a registration, the
first registration lies after them. -/
theorem prefix_of_registration {a b pre post : List Event} {e : Event}
    (h : pre ++ e :: post = a ++ b) (ha : ∀ x ∈ a, isRegistration x = false)
    (he : isRegistration e = true) : a <+: pre := by
  rcases List.append_eq_append_iff.1 h with ⟨a1, h1, h2⟩ | ⟨c1, h1, h2⟩
  · cases a1 with
    | nil => exact ⟨[], by simp [h1]⟩
    | cons x xs =>
      simp only [List.cons_append, List.cons.injEq] at h2
      have hmem : e ∈ a := by rw [h1, h2.1]; simp
      rw [ha e hmem] at he
      cases he
  · exact ⟨c1, h1.symm⟩

theorem checkSign_trace_no_registration (env : JNIEnv) :
    ∀ x ∈ (checkSign env [Event.GetEnv JNI_VERSION_1_6]).2, isRegistration x = false := by
  intro x hx
  rw [checkSign_snd] at hx
  rcases List.mem_append.1 hx with h | h
  · simp only [List.mem_singleton] at h
    subst h
    rfl
  · exact checkSign_no_registration env x h

/-- The calls of `JNI_OnLoad` on a run in which `GetEnv` succeeds: those of
`checkSign`, followed by calls of the registration only if `checkSign`
returned `JNI_OK`. -/
theorem JNI_OnLoad_trace (vm : JavaVM) (h : (vm.GetEnv JNI_VERSION_1_6).1 = JNI_OK) :
    ((checkSign (vm.GetEnv JNI_VERSION_1_6).2 []).1 = Outcome.returned JNI_OK ∧
      ∃ r, (JNI_OnLoad vm []).2
        = (checkSign (vm.GetEnv JNI_VERSION_1_6).2 [Event.GetEnv JNI_VERSION_1_6]).2 ++ r) ∨
    ((checkSign (vm.GetEnv JNI_VERSION_1_6).2 []).1 ≠ Outcome.returned JNI_OK ∧
      (JNI_OnLoad vm []).2
        = (checkSign (vm.GetEnv JNI_VERSION_1_6).2 [Event.GetEnv JNI_VERSION_1_6]).2) := by
  have hload := JNI_OnLoad_eq vm []
  rw [if_neg (not_not.2 h)] at hload
  simp only [List.nil_append] at hload
  have hvs := verifySign_of_checkSign (vm.GetEnv JNI_VERSION_1_6).2
    [Event.GetEnv JNI_VERSION_1_6]
  have hfst := checkSign_fst (vm.GetEnv JNI_VERSION_1_6).2 [Event.GetEnv JNI_VERSION_1_6]
  rcases checkSign_cases (vm.GetEnv JNI_VERSION_1_6).2 [Event.GetEnv JNI_VERSION_1_6]
    with hc | hc | hc
  · left
    refine ⟨by rw [← hfst]; exact hc, ?_⟩
    rw [hvs.1 hc] at hload
    simp only [] at hload
    refine ⟨(registerNativeMethods (vm.GetEnv JNI_VERSION_1_6).2 []).2, ?_⟩
    rw [hload, registerNativeMethods_framed _
      (checkSign (vm.GetEnv JNI_VERSION_1_6).2 [Event.GetEnv JNI_VERSION_1_6]).2]
    split <;> rfl
  · right
    refine ⟨by rw [← hfst, hc]; decide, ?_⟩
    rw [hvs.2.1 hc] at hload
    rw [hload]
  · right
    refine ⟨by rw [← hfst, hc]; simp, ?_⟩
    rw [hvs.2.2 hc] at hload
    rw [hload]

/-- `checkSign` returns `JNI_ERR` exactly on the hosts on which the package
check fails. -/
theorem checkSign_err_iff (env : JNIEnv) (t : List Event) :
    (checkSign env t).1 = Outcome.returned JNI_ERR ↔ packageCheckFails env := by
  constructor
  · intro h
    obtain ⟨app, happ⟩ := getApplication_returns env t
    rw [checkSign_outcome env t app happ] at h
    rw [getApplication_fst] at happ
    by_cases hnull : app = JObject.null
    · subst hnull
      exact Or.inl happ
    · rw [if_neg hnull] at h
      rcases hp : packageNameOf env app with _ | p | n
      · rw [hp] at h; cases h
      · rw [hp] at h
        simp only [] at h
        by_cases hc : strcmpBuf (mutf8Encode p ++ [0]) PKG = 0
        · rw [if_pos hc] at h
          exact absurd h (by decide)
        · exact Or.inr ⟨app, p, happ, hnull, hp, fun hpk => hc ((strcmpBuf_PKG p).2 hpk)⟩
      · rw [hp] at h; cases h
  · intro h
    exact checkSign_err_of_mismatch env t h

/-- `checkSign` returns `JNI_OK` exactly on the hosts on which the package
check passes. -/
theorem checkSign_ok_iff (env : JNIEnv) (t : List Event) :
    (checkSign env t).1 = Outcome.returned JNI_OK ↔ packageCheckPasses env := by
  constructor
  · intro h
    obtain ⟨app, happ⟩ := getApplication_returns env t
    rw [checkSign_outcome env t app happ] at h
    rw [getApplication_fst] at happ
    by_cases hnull : app = JObject.null
    · rw [if_pos hnull] at h
      exact absurd h (by decide)
    · rw [if_neg hnull] at h
      rcases hp : packageNameOf env app with _ | p | n
      · rw [hp] at h; cases h
      · rw [hp] at h
        simp only [] at h
        by_cases hc : strcmpBuf (mutf8Encode p ++ [0]) PKG = 0
        · have hpk := (strcmpBuf_PKG p).1 hc
          subst hpk
          exact ⟨app, happ, hnull, hp⟩
        · rw [if_neg hc] at h
          exact absurd h (by decide)
      · rw [hp] at h; cases h
  · rintro ⟨app, happ, hnull, hp⟩
    rw [← getApplication_fst env t] at happ
    rw [checkSign_outcome env t app happ, if_neg hnull, hp]
    simp only []
    rw [if_pos ((strcmpBuf_PKG _).2 rfl)]

/-- The outcome of `registerNativeMethods`, by the answers of the host. -/
theorem registerNativeMethods_fst (env : JNIEnv) (t : List Event) :
    (registrationFails env → (registerNativeMethods env t).1 = Outcome.returned JNI_FALSE) ∧
    (¬ registrationFails env → (registerNativeMethods env t).1 = Outcome.returned JNI_TRUE) := by
  unfold registrationFails
  rw [registerNativeMethods_eq]
  constructor
  · intro hfail
    by_cases h1 : env.FindClass JNIREG_CLASS = JObject.null
    · simp [h1]
    · have h2 := hfail.resolve_left h1
      simp [h1, h2]
  · intro hgood
    have h1 : ¬ env.FindClass JNIREG_CLASS = JObject.null := fun h => hgood (Or.inl h)
    have h2 : ¬ env.RegisterNatives (env.FindClass JNIREG_CLASS) method_table 3 < 0 :=
      fun h => hgood (Or.inr h)
    simp [h1, h2]

/-- The outcome of `JNI_OnLoad` on a run in which `GetEnv` succeeds, by the
outcome of `checkSign` and the answers to the registration. -/
theorem JNI_OnLoad_fst (vm : JavaVM) (env : JNIEnv)
    (hvm : vm.GetEnv JNI_VERSION_1_6 = (JNI_OK, env)) :
    ((checkSign env []).1 = Outcome.returned JNI_ERR →
      (JNI_OnLoad vm []).1 = Outcome.exited 1) ∧
    ((checkSign env []).1 = Outcome.fault → (JNI_OnLoad vm []).1 = Outcome.fault) ∧
    ((checkSign env []).1 = Outcome.returned JNI_OK →
      (registrationFails env → (JNI_OnLoad vm []).1 = Outcome.exited 0) ∧
      (¬ registrationFails env →
        (JNI_OnLoad vm []).1 = Outcome.returned JNI_VERSION_1_6)) := by
  have hload := JNI_OnLoad_eq vm []
  rw [hvm] at hload
  simp only [ne_eq, not_true_eq_false, if_false, List.nil_append] at hload
  have hvs := verifySign_of_checkSign env [Event.GetEnv JNI_VERSION_1_6]
  have hfst := checkSign_fst env [Event.GetEnv JNI_VERSION_1_6]
  refine ⟨?_, ?_, ?_⟩
  · intro hc
    rw [← hfst] at hc
    rw [hvs.2.1 hc] at hload
    rw [hload]
  · intro hc
    rw [← hfst] at hc
    rw [hvs.2.2 hc] at hload
    rw [hload]
  · intro hc
    rw [← hfst] at hc
    rw [hvs.1 hc] at hload
    simp only [] at hload
    constructor
    · intro hfail
      rw [hload, if_pos ((registerNativeMethods_fst env _).1 hfail)]
    · intro hgood
      have hne : ¬ (registerNativeMethods env (checkSign env [Event.GetEnv JNI_VERSION_1_6]).2).1
          = Outcome.returned JNI_FALSE := by
        rw [(registerNativeMethods_fst env _).2 hgood]; decide
      rw [hload, if_neg hne]

/-! ## The claims -/

/-- C1: `checkSign` decides on the package name alone.  The text of `PKG`
is "com.agcforge.lk21xxi.videodownloader".  When `getApplication` yields
NULL, `checkSign` returns `JNI_ERR`; when it yields an application whose
`getPackageName()` answers the string `p`, `checkSign` returns `JNI_OK` if
and only if `p` is exactly the text of `PKG`, and `JNI_ERR` otherwise. -/
theorem checkSign_decides_on_package_name (env : JNIEnv) (t : List Event) :
    cbytes PKG = "com.agcforge.lk21xxi.videodownloader".toList.map Char.toNat ∧
    ((getApplication env t).1 = Outcome.returned JObject.null →
      (checkSign env t).1 = Outcome.returned JNI_ERR) ∧
    (∀ app p, (getApplication env t).1 = Outcome.returned app → app ≠ JObject.null →
      packageNameOf env app = JObject.str p →
      ((checkSign env t).1 = Outcome.returned JNI_OK ↔ p = cbytes PKG) ∧
      ((checkSign env t).1 = Outcome.returned JNI_ERR ↔ p ≠ cbytes PKG)) := by
  refine ⟨by decide, ?_, ?_⟩
  · intro happ
    rw [checkSign_outcome env t _ happ]
    simp
  · intro app p happ hnn hp
    rw [checkSign_outcome env t _ happ, hp]
    simp only [hnn, if_false]
    by_cases hc : strcmpBuf (mutf8Encode p ++ [0]) PKG = 0
    · have hpk := (strcmpBuf_PKG p).1 hc
      rw [if_pos hc]
      exact ⟨iff_of_true rfl hpk, iff_of_false (by decide) (not_not.2 hpk)⟩
    · have hpk : p ≠ cbytes PKG := fun h => hc ((strcmpBuf_PKG p).2 h)
      rw [if_neg hc]
      exact ⟨iff_of_false (by decide) hpk, iff_of_true rfl hpk⟩

/-- C1, at a host whose application answers the expected package name, at
one whose package name carries a suffix after an embedded NUL, and at one
whose package name differs in the case of one letter. -/
theorem checkSign_decides_on_package_name_witness :
    (checkSign (demoEnv (JObject.str (cbytes PKG)) (JObject.obj 2) 0) []).1
        = Outcome.returned JNI_OK ∧
    (checkSign (demoEnv (JObject.str (cbytes PKG ++ [0, 65])) (JObject.obj 2) 0) []).1
        = Outcome.returned JNI_ERR ∧
    (checkSign (demoEnv (JObject.str (67 :: (cbytes PKG).tail)) (JObject.obj 2) 0) []).1
        = Outcome.returned JNI_ERR :=
  ⟨((checkSign_decides_on_package_name
      (demoEnv (JObject.str (cbytes PKG)) (JObject.obj 2) 0) []).2.2
      (JObject.obj 10) (cbytes PKG) (by decide) (by decide) (by decide)).1.2 rfl,
   ((checkSign_decides_on_package_name
      (demoEnv (JObject.str (cbytes PKG ++ [0, 65])) (JObject.obj 2) 0) []).2.2
      (JObject.obj 10) (cbytes PKG ++ [0, 65]) (by decide) (by decide) (by decide)).2.2
      (by decide),
   ((checkSign_decides_on_package_name
      (demoEnv (JObject.str (67 :: (cbytes PKG).tail)) (JObject.obj 2) 0) []).2.2
      (JObject.obj 10) (67 :: (cbytes PKG).tail) (by decide) (by decide) (by decide)).2.2
      (by decide)⟩

/-- C2: a package mismatch is fatal at load time.  When `GetEnv` succeeds
and the application cannot be obtained, or its package name is a string
other than the text of `PKG`, `verifySign` ends the process with `exit(1)`
and `JNI_OnLoad` ends there too: it returns no value and makes no call
after those of `verifySign`. -/
theorem package_mismatch_is_fatal (vm : JavaVM) (env : JNIEnv)
    (hvm : vm.GetEnv JNI_VERSION_1_6 = (JNI_OK, env))
    (hbad : (getApplication env []).1 = Outcome.returned JObject.null ∨
      ∃ app p, (getApplication env []).1 = Outcome.returned app ∧ app ≠ JObject.null ∧
        packageNameOf env app = JObject.str p ∧ p ≠ cbytes PKG) :
    (verifySign env [Event.GetEnv JNI_VERSION_1_6]).1 = Outcome.exited 1 ∧
    (JNI_OnLoad vm []).1 = Outcome.exited 1 ∧
    (JNI_OnLoad vm []).2 = (verifySign env [Event.GetEnv JNI_VERSION_1_6]).2 ∧
    ∀ v, (JNI_OnLoad vm []).1 ≠ Outcome.returned v := by
  have herr := checkSign_err_of_mismatch env [Event.GetEnv JNI_VERSION_1_6] hbad
  have hv := (verifySign_of_checkSign env [Event.GetEnv JNI_VERSION_1_6]).2.1 herr
  have hload : JNI_OnLoad vm [] =
      (Outcome.exited 1, (checkSign env [Event.GetEnv JNI_VERSION_1_6]).2) := by
    rw [JNI_OnLoad_eq, hvm]
    simp only [ne_eq, not_true_eq_false, if_false, List.nil_append]
    rw [hv]
  refine ⟨by rw [hv], by rw [hload], by rw [hload, hv], ?_⟩
  intro v
  rw [hload]
  simp

/-- C2, at a host whose application has the package name "c". -/
theorem package_mismatch_is_fatal_witness :
    (JNI_OnLoad (demoVM 0 (demoEnv (JObject.str [99]) (JObject.obj 2) 0)) []).1
      = Outcome.exited 1 := by
  have h := package_mismatch_is_fatal (demoVM 0 (demoEnv (JObject.str [99]) (JObject.obj 2) 0))
    (demoEnv (JObject.str [99]) (JObject.obj 2) 0) rfl
    (Or.inr ⟨JObject.obj 10, [99], by decide, by decide, by decide, by decide⟩)
  exact h.2.1


/-- C3: a failure to register the native methods is fatal.  When `GetEnv`
succeeds and `checkSign` returns `JNI_OK`: if `FindClass` on `JNIREG_CLASS`
answers NULL or `RegisterNatives` answers a negative value, then
`registerNativeMethods` returns `JNI_FALSE` and `JNI_OnLoad` ends the
process with `exit(0)`; otherwise `registerNativeMethods` returns
`JNI_TRUE` and `JNI_OnLoad` returns `JNI_VERSION_1_6`. -/
theorem registration_failure_is_fatal (vm : JavaVM) (env : JNIEnv) (t : List Event)
    (hvm : vm.GetEnv JNI_VERSION_1_6 = (JNI_OK, env))
    (hsign : (checkSign env []).1 = Outcome.returned JNI_OK) :
    ((env.FindClass JNIREG_CLASS = JObject.null ∨
        env.RegisterNatives (env.FindClass JNIREG_CLASS) method_table 3 < 0) →
      (registerNativeMethods env t).1 = Outcome.returned JNI_FALSE ∧
      (JNI_OnLoad vm []).1 = Outcome.exited 0) ∧
    (¬ (env.FindClass JNIREG_CLASS = JObject.null ∨
        env.RegisterNatives (env.FindClass JNIREG_CLASS) method_table 3 < 0) →
      (registerNativeMethods env t).1 = Outcome.returned JNI_TRUE ∧
      (JNI_OnLoad vm []).1 = Outcome.returned JNI_VERSION_1_6) := by
  have hok : (checkSign env [Event.GetEnv JNI_VERSION_1_6]).1 = Outcome.returned JNI_OK := by
    rw [checkSign_fst]; exact hsign
  have hv := (verifySign_of_checkSign env [Event.GetEnv JNI_VERSION_1_6]).1 hok
  have hload := JNI_OnLoad_eq vm []
  rw [hvm] at hload
  simp only [ne_eq, not_true_eq_false, if_false, List.nil_append] at hload
  rw [hv] at hload
  simp only [] at hload
  constructor
  · intro hfail
    have hreg : ∀ t2, (registerNativeMethods env t2).1 = Outcome.returned JNI_FALSE := by
      intro t2
      rw [registerNativeMethods_eq]
      by_cases h1 : env.FindClass JNIREG_CLASS = JObject.null
      · simp [h1]
      · have h2 := hfail.resolve_left h1
        simp [h1, h2]
    refine ⟨hreg t, ?_⟩
    rw [hload, if_pos (hreg _)]
  · intro hgood
    have h1 : ¬ env.FindClass JNIREG_CLASS = JObject.null := fun h => hgood (Or.inl h)
    have h2 : ¬ env.RegisterNatives (env.FindClass JNIREG_CLASS) method_table 3 < 0 :=
      fun h => hgood (Or.inr h)
    have hreg : ∀ t2, (registerNativeMethods env t2).1 = Outcome.returned JNI_TRUE := by
      intro t2
      rw [registerNativeMethods_eq]
      simp [h1, h2]
    refine ⟨hreg t, ?_⟩
    have hne : ¬ (registerNativeMethods env (checkSign env [Event.GetEnv JNI_VERSION_1_6]).2).1
        = Outcome.returned JNI_FALSE := by
      rw [hreg]; decide
    rw [hload, if_neg hne]

/-- C3, at a host whose `RegisterNatives` answers `-1` and at a host where
the registration succeeds. -/
theorem registration_failure_is_fatal_witness :
    (JNI_OnLoad (demoVM 0 (demoEnv (JObject.str (cbytes PKG)) (JObject.obj 2) (-1))) []).1
      = Outcome.exited 0 ∧
    (JNI_OnLoad (demoVM 0 (demoEnv (JObject.str (cbytes PKG)) (JObject.obj 2) 0)) []).1
      = Outcome.returned JNI_VERSION_1_6 :=
  ⟨((registration_failure_is_fatal
      (demoVM 0 (demoEnv (JObject.str (cbytes PKG)) (JObject.obj 2) (-1)))
      (demoEnv (JObject.str (cbytes PKG)) (JObject.obj 2) (-1)) [] rfl (by decide)).1
      (Or.inr (by decide))).2,
   ((registration_failure_is_fatal
      (demoVM 0 (demoEnv (JObject.str (cbytes PKG)) (JObject.obj 2) 0))
      (demoEnv (JObject.str (cbytes PKG)) (JObject.obj 2) 0) [] rfl (by decide)).2
      (by decide)).2⟩

/-- C4 as stated fails: when `GetEnv` answers `JNI_EDETACHED` (`-2`),
`JNI_OnLoad` returns `JNI_ERR` to the runtime; it neither ends the process
nor returns `JNI_VERSION_1_6`. -/
theorem JNI_OnLoad_returns_error_value :
    JNI_OnLoad (demoVM (-2) (demoEnv (JObject.str (cbytes PKG)) (JObject.obj 2) 0)) []
      = (Outcome.returned JNI_ERR, [Event.GetEnv JNI_VERSION_1_6]) ∧
    ¬ ((∃ s, (JNI_OnLoad (demoVM (-2)
          (demoEnv (JObject.str (cbytes PKG)) (JObject.obj 2) 0)) []).1 = Outcome.exited s) ∨
       (JNI_OnLoad (demoVM (-2)
          (demoEnv (JObject.str (cbytes PKG)) (JObject.obj 2) 0)) []).1
         = Outcome.returned JNI_VERSION_1_6) := by
  have h : JNI_OnLoad (demoVM (-2) (demoEnv (JObject.str (cbytes PKG)) (JObject.obj 2) 0)) []
      = (Outcome.returned JNI_ERR, [Event.GetEnv JNI_VERSION_1_6]) := by decide
  refine ⟨h, ?_⟩
  rw [h]
  rintro (⟨s, hs⟩ | hr)
  · cases hs
  · exact absurd hr (by decide)

/-- C4, amended: besides the two fatal failure modes `JNI_OnLoad` has a
third one that is not fatal.  When `GetEnv` does not answer `JNI_OK`,
`JNI_OnLoad` returns `JNI_ERR` after that single call, and it returns
`JNI_ERR` on no other run.  When `GetEnv` answers `JNI_OK`: a failed
package check ends the process with `exit(1)`; a passed package check
followed by a failed registration ends it with `exit(0)`; a passed package
check followed by a successful registration makes `JNI_OnLoad` return
`JNI_VERSION_1_6`; the process is ended by `exit` in no other case and with
no other status, and no value other than `JNI_VERSION_1_6` is returned. -/
theorem JNI_OnLoad_outcomes (vm : JavaVM) (status : Int) (env : JNIEnv)
    (hvm : vm.GetEnv JNI_VERSION_1_6 = (status, env)) :
    (status ≠ JNI_OK →
      JNI_OnLoad vm [] = (Outcome.returned JNI_ERR, [Event.GetEnv JNI_VERSION_1_6])) ∧
    ((JNI_OnLoad vm []).1 = Outcome.returned JNI_ERR ↔ status ≠ JNI_OK) ∧
    (status = JNI_OK →
      (packageCheckFails env → (JNI_OnLoad vm []).1 = Outcome.exited 1) ∧
      (packageCheckPasses env → registrationFails env →
        (JNI_OnLoad vm []).1 = Outcome.exited 0) ∧
      (packageCheckPasses env → ¬ registrationFails env →
        (JNI_OnLoad vm []).1 = Outcome.returned JNI_VERSION_1_6) ∧
      (∀ s, (JNI_OnLoad vm []).1 = Outcome.exited s →
        (s = 1 ∧ packageCheckFails env) ∨
        (s = 0 ∧ packageCheckPasses env ∧ registrationFails env)) ∧
      (∀ v, (JNI_OnLoad vm []).1 = Outcome.returned v →
        v = JNI_VERSION_1_6 ∧ packageCheckPasses env ∧ ¬ registrationFails env)) := by
  have hfail : status ≠ JNI_OK →
      JNI_OnLoad vm [] = (Outcome.returned JNI_ERR, [Event.GetEnv JNI_VERSION_1_6]) := by
    intro h
    rw [JNI_OnLoad_eq, hvm, if_pos h]
    rfl
  have hok : status = JNI_OK →
      (packageCheckFails env → (JNI_OnLoad vm []).1 = Outcome.exited 1) ∧
      (packageCheckPasses env → registrationFails env →
        (JNI_OnLoad vm []).1 = Outcome.exited 0) ∧
      (packageCheckPasses env → ¬ registrationFails env →
        (JNI_OnLoad vm []).1 = Outcome.returned JNI_VERSION_1_6) ∧
      (∀ s, (JNI_OnLoad vm []).1 = Outcome.exited s →
        (s = 1 ∧ packageCheckFails env) ∨
        (s = 0 ∧ packageCheckPasses env ∧ registrationFails env)) ∧
      (∀ v, (JNI_OnLoad vm []).1 = Outcome.returned v →
        v = JNI_VERSION_1_6 ∧ packageCheckPasses env ∧ ¬ registrationFails env) := by
    intro h
    subst h
    obtain ⟨herr, hfault, hpass⟩ := JNI_OnLoad_fst vm env hvm
    refine ⟨?_, ?_, ?_, ?_, ?_⟩
    · intro hf
      exact herr ((checkSign_err_iff env []).2 hf)
    · intro hp hr
      exact (hpass ((checkSign_ok_iff env []).2 hp)).1 hr
    · intro hp hr
      exact (hpass ((checkSign_ok_iff env []).2 hp)).2 hr
    · intro s hs
      rcases checkSign_cases env [] with hc | hc | hc
      · have hp := (checkSign_ok_iff env []).1 hc
        by_cases hr : registrationFails env
        · rw [(hpass hc).1 hr] at hs
          cases hs
          exact Or.inr ⟨rfl, hp, hr⟩
        · rw [(hpass hc).2 hr] at hs
          cases hs
      · rw [herr hc] at hs
        cases hs
        exact Or.inl ⟨rfl, (checkSign_err_iff env []).1 hc⟩
      · rw [hfault hc] at hs
        cases hs
    · intro v hv
      rcases checkSign_cases env [] with hc | hc | hc
      · have hp := (checkSign_ok_iff env []).1 hc
        by_cases hr : registrationFails env
        · rw [(hpass hc).1 hr] at hv
          cases hv
        · rw [(hpass hc).2 hr] at hv
          cases hv
          exact ⟨rfl, hp, hr⟩
      · rw [herr hc] at hv
        cases hv
      · rw [hfault hc] at hv
        cases hv
  refine ⟨hfail, ⟨?_, ?_⟩, hok⟩
  · intro hret hst
    have hv := ((hok hst).2.2.2.2 JNI_ERR hret).1
    exact absurd hv (by decide)
  · intro hst
    rw [hfail hst]

/-- C4 amended, at a virtual machine whose `GetEnv` answers `-2`, and at
virtual machines whose `GetEnv` answers `JNI_OK`: one whose application has
the package name "c", one whose `RegisterNatives` answers `-1`, and one on
which the check and the registration succeed. -/
theorem JNI_OnLoad_outcomes_witness :
    JNI_OnLoad (demoVM (-2) (demoEnv (JObject.str (cbytes PKG)) (JObject.obj 2) 0)) []
      = (Outcome.returned JNI_ERR, [Event.GetEnv JNI_VERSION_1_6]) ∧
    (JNI_OnLoad (demoVM 0 (demoEnv (JObject.str [99]) (JObject.obj 2) 0)) []).1
      = Outcome.exited 1 ∧
    (JNI_OnLoad (demoVM 0 (demoEnv (JObject.str (cbytes PKG)) (JObject.obj 2) (-1))) []).1
      = Outcome.exited 0 ∧
    (JNI_OnLoad (demoVM 0 (demoEnv (JObject.str (cbytes PKG)) (JObject.obj 2) 0)) []).1
      = Outcome.returned JNI_VERSION_1_6 :=
  ⟨(JNI_OnLoad_outcomes
      (demoVM (-2) (demoEnv (JObject.str (cbytes PKG)) (JObject.obj 2) 0)) (-2)
      (demoEnv (JObject.str (cbytes PKG)) (JObject.obj 2) 0) rfl).1 (by decide),
   ((JNI_OnLoad_outcomes
      (demoVM 0 (demoEnv (JObject.str [99]) (JObject.obj 2) 0)) 0
      (demoEnv (JObject.str [99]) (JObject.obj 2) 0) rfl).2.2 rfl).1
      (Or.inr ⟨JObject.obj 10, [99], by decide, by decide, by decide, by decide⟩),
   ((JNI_OnLoad_outcomes
      (demoVM 0 (demoEnv (JObject.str (cbytes PKG)) (JObject.obj 2) (-1))) 0
      (demoEnv (JObject.str (cbytes PKG)) (JObject.obj 2) (-1)) rfl).2.2 rfl).2.1
      ⟨JObject.obj 10, by decide, by decide, by decide⟩ (Or.inr (by decide)),
   ((JNI_OnLoad_outcomes
      (demoVM 0 (demoEnv (JObject.str (cbytes PKG)) (JObject.obj 2) 0)) 0
      (demoEnv (JObject.str (cbytes PKG)) (JObject.obj 2) 0) rfl).2.2 rfl).2.2.1
      ⟨JObject.obj 10, by decide, by decide, by decide⟩
      (by
        intro h
        rcases h with h | h
        · exact absurd h (by decide)
        · exact absurd h (by decide))⟩

/-- C10: verification precedes registration in `JNI_OnLoad`.  Every call of
`RegisterNatives`, and every `FindClass` on `JNIREG_CLASS`, that a run of
`JNI_OnLoad` makes comes after `GetEnv` answered `JNI_OK` and after all the
calls of a `checkSign` that returned `JNI_OK`; when `GetEnv` fails or
`checkSign` does not return `JNI_OK`, the run makes no such call. -/
theorem verification_precedes_registration (vm : JavaVM) :
    (∀ pre e post, (JNI_OnLoad vm []).2 = pre ++ e :: post → isRegistration e = true →
      (vm.GetEnv JNI_VERSION_1_6).1 = JNI_OK ∧
      (checkSign (vm.GetEnv JNI_VERSION_1_6).2 []).1 = Outcome.returned JNI_OK ∧
      (checkSign (vm.GetEnv JNI_VERSION_1_6).2 [Event.GetEnv JNI_VERSION_1_6]).2 <+: pre) ∧
    (((vm.GetEnv JNI_VERSION_1_6).1 ≠ JNI_OK ∨
        (checkSign (vm.GetEnv JNI_VERSION_1_6).2 []).1 ≠ Outcome.returned JNI_OK) →
      ∀ e ∈ (JNI_OnLoad vm []).2, isRegistration e = false) := by
  have key : ∀ pre e post, (JNI_OnLoad vm []).2 = pre ++ e :: post → isRegistration e = true →
      (vm.GetEnv JNI_VERSION_1_6).1 = JNI_OK ∧
      (checkSign (vm.GetEnv JNI_VERSION_1_6).2 []).1 = Outcome.returned JNI_OK ∧
      (checkSign (vm.GetEnv JNI_VERSION_1_6).2 [Event.GetEnv JNI_VERSION_1_6]).2 <+: pre := by
    intro pre e post htr he
    have hmem : e ∈ (JNI_OnLoad vm []).2 := by rw [htr]; simp
    by_cases h : (vm.GetEnv JNI_VERSION_1_6).1 = JNI_OK
    · rcases JNI_OnLoad_trace vm h with ⟨hok, r, hr⟩ | ⟨-, hr⟩
      · refine ⟨h, hok, ?_⟩
        rw [hr] at htr
        exact prefix_of_registration htr.symm (checkSign_trace_no_registration _) he
      · rw [hr] at hmem
        rw [checkSign_trace_no_registration _ e hmem] at he
        cases he
    · rw [JNI_OnLoad_eq, if_pos h] at hmem
      simp only [List.nil_append, List.mem_singleton] at hmem
      subst hmem
      cases he
  refine ⟨key, ?_⟩
  intro hbad e hmem
  obtain ⟨pre, post, hsplit⟩ := List.append_of_mem hmem
  cases hreg : isRegistration e with
  | false => rfl
  | true =>
    obtain ⟨h1, h2, -⟩ := key pre e post hsplit hreg
    rcases hbad with hb | hb
    · exact absurd h1 hb
    · exact absurd h2 hb

/-- C10, at the run of a host on which the registration succeeds: the
`FindClass` on `JNIREG_CLASS` comes after the calls of `checkSign`. -/
theorem verification_precedes_registration_witness :
    ((demoVM 0 (demoEnv (JObject.str (cbytes PKG)) (JObject.obj 2) 0)).GetEnv
        JNI_VERSION_1_6).1 = JNI_OK ∧
    (checkSign ((demoVM 0 (demoEnv (JObject.str (cbytes PKG)) (JObject.obj 2) 0)).GetEnv
        JNI_VERSION_1_6).2 []).1
      = Outcome.returned JNI_OK ∧
    (checkSign (demoEnv (JObject.str (cbytes PKG)) (JObject.obj 2) 0)
        [Event.GetEnv JNI_VERSION_1_6]).2 <+:
      (checkSign (demoEnv (JObject.str (cbytes PKG)) (JObject.obj 2) 0)
        [Event.GetEnv JNI_VERSION_1_6]).2 :=
  (verification_precedes_registration
      (demoVM 0 (demoEnv (JObject.str (cbytes PKG)) (JObject.obj 2) 0))).1
    (checkSign (demoEnv (JObject.str (cbytes PKG)) (JObject.obj 2) 0)
      [Event.GetEnv JNI_VERSION_1_6]).2
    (Event.FindClass JNIREG_CLASS)
    [Event.RegisterNatives (JObject.obj 2) method_table 3]
    (by decide) (by decide)

/-- C9: nothing but the package name influences the signature check.  Two
runs of `checkSign`, on any two hosts and after any calls, in which the
application is not NULL and `getPackageName()` answers the same string,
have the same result, whatever the hosts answer for the PackageManager
object, its class and the `getPackageInfo` lookup. -/
theorem checkSign_depends_only_on_package_name (env1 env2 : JNIEnv) (t1 t2 : List Event)
    (app1 app2 : JObject) (p : List Nat)
    (h1 : (getApplication env1 t1).1 = Outcome.returned app1) (hn1 : app1 ≠ JObject.null)
    (h2 : (getApplication env2 t2).1 = Outcome.returned app2) (hn2 : app2 ≠ JObject.null)
    (hp1 : packageNameOf env1 app1 = JObject.str p)
    (hp2 : packageNameOf env2 app2 = JObject.str p) :
    (checkSign env1 t1).1 = (checkSign env2 t2).1 ∧
    ∃ r, (checkSign env1 t1).1 = Outcome.returned r := by
  rw [checkSign_outcome env1 t1 app1 h1, checkSign_outcome env2 t2 app2 h2, hp1, hp2,
    if_neg hn1, if_neg hn2]
  refine ⟨rfl, ?_⟩
  simp only []
  split
  · exact ⟨_, rfl⟩
  · exact ⟨_, rfl⟩

/-- C9, at two hosts that differ in everything but the package name. -/
theorem checkSign_depends_only_on_package_name_witness :
    (checkSign (demoEnv (JObject.str (cbytes PKG)) (JObject.obj 2) 0) []).1
      = (checkSign (otherEnv (JObject.str (cbytes PKG)))
          [Event.GetEnv JNI_VERSION_1_6]).1 :=
  (checkSign_depends_only_on_package_name
    (demoEnv (JObject.str (cbytes PKG)) (JObject.obj 2) 0)
    (otherEnv (JObject.str (cbytes PKG))) [] [Event.GetEnv JNI_VERSION_1_6]
    (JObject.obj 10) (JObject.obj 200) (cbytes PKG)
    (by decide) (by decide) (by decide) (by decide) (by decide) (by decide)).1

/-- C5: the table of native methods has exactly the three entries `init`,
`getId` and `register`, in this order, bound to `initLib`, `fan` and
`initAdsNetwork`; `registerNativeMethods` looks up the class
"com/agcforge/lk21xxi/videodownloader/utils/AppManager" and, when the class
is found, makes one call of `RegisterNatives`, on that class, with this
table and the count 3. -/
theorem method_table_registered :
    method_table =
      [ { name := cstr "init", signature := cstr "()Ljava/lang/String;",
          fnPtr := NativeFn.initLib },
        { name := cstr "getId", signature := cstr "()Ljava/lang/String;",
          fnPtr := NativeFn.fan },
        { name := cstr "register", signature := cstr "(Landroid/app/Activity;)V",
          fnPtr := NativeFn.initAdsNetwork } ] ∧
    method_table.length = 3 ∧
    JNIREG_CLASS = cstr "com/agcforge/lk21xxi/videodownloader/utils/AppManager" ∧
    ∀ (env : JNIEnv) (t : List Event),
      (registerNativeMethods env t).2 =
        t ++ Event.FindClass JNIREG_CLASS ::
          (if env.FindClass JNIREG_CLASS = JObject.null then []
           else [Event.RegisterNatives (env.FindClass JNIREG_CLASS) method_table 3]) := by
  refine ⟨rfl, rfl, rfl, ?_⟩
  intro env t
  rw [registerNativeMethods_eq]
  split <;> rfl

/-- C6: `initLib` returns the Java string "init rom, don't remove", made by
one call of `NewStringUTF`, whatever the host, the receiver and the calls
made before. -/
theorem initLib_returns_static_string (env : JNIEnv) (thiz : JObject) (t : List Event) :
    initLib env thiz t =
      (Outcome.returned
        (JObject.str ("init rom, don\x27t remove".toList.map Char.toNat)),
       t ++ [Event.NewStringUTF (cstr "init rom, don\x27t remove")]) := by
  have h : mutf8Decode (cbytes (cstr "init rom, don\x27t remove"))
      = "init rom, don\x27t remove".toList.map Char.toNat := by decide
  simp only [initLib, NewStringUTF, call, h]

/-- C7: `fan` returns the identifier of the ad network, the empty string:
a Java string of length 0 made from `fanid` by one call of `NewStringUTF`,
whatever the host, the receiver and the calls made before. -/
theorem fan_returns_empty_identifier (env : JNIEnv) (thiz : JObject) (t : List Event) :
    fan env thiz t = (Outcome.returned (JObject.str []), t ++ [Event.NewStringUTF fanid]) ∧
    cbytes fanid = [] := by
  have h : mutf8Decode (cbytes fanid) = [] := by decide
  refine ⟨?_, by decide⟩
  simp only [fan, NewStringUTF, call, h]

/-- C8: `initAdsNetwork` makes four calls, in this order: two of
`NewStringUTF`, on `appid` and on `clientkey`, one static call of
`getlistener` on `app_clz`, and one call of `funcInit` on `tapdaqInstance`
with the arguments (activity, the empty string made from `appid`, the
empty string made from `clientkey`, NULL, the listener the static call
answered).  The activity is passed as received. -/
theorem initAdsNetwork_forwards_init (g : Globals) (env : JNIEnv) (thiz activity : JObject)
    (t : List Event) :
    initAdsNetwork g env thiz activity t =
      (Outcome.returned (),
       t ++ [Event.NewStringUTF appid,
             Event.NewStringUTF clientkey,
             Event.CallStaticObjectMethod g.app_clz g.getlistener [],
             Event.CallVoidMethod g.tapdaqInstance g.funcInit
               [activity, JObject.str [], JObject.str [], JObject.null,
                env.CallStaticObjectMethod g.app_clz g.getlistener []]]) ∧
    cbytes appid = [] ∧ cbytes clientkey = [] := by
  have h1 : mutf8Decode (cbytes appid) = [] := by decide
  have h2 : mutf8Decode (cbytes clientkey) = [] := by decide
  refine ⟨?_, by decide, by decide⟩
  simp [initAdsNetwork, bind, JNI.bind, NewStringUTF, CallStaticObjectMethod, CallVoidMethod,
    call, h1, h2]

end MovieHandler
